import Mathlib

/-!
Shallow embedding of the weewx-xmlparse driver (src/bin/user/xmlparse.py,
Python 2) and proofs about it.

Modelling conventions:
- Python floats are modelled as exact fractions (`Frac`: an integer
  numerator over a positive integer denominator, kept unnormalized so
  that everything computes by kernel reduction).  The numeric claims
  carry tolerances that absorb binary64 rounding; `Frac.toRat`
  interprets a fraction as a rational for those statements.
- Python `None` is `Option.none` for raw string slots and `PVal.pynone`
  inside heterogeneous record values.
- Python dicts are association lists in insertion order with
  insert-or-overwrite semantics (`dictInsert`), matching membership and
  lookup behaviour of `dict`.
- Code that can raise returns `Except PyErr _`; an uncaught Python
  exception is `Except.error`.
- The XPath evaluator (xml.etree.ElementTree) is an external
  collaborator; a document is modelled by its query table: for each
  XPath string, the list of matched elements in document order, with
  `tree.find` returning the first match or `None` exactly as
  ElementTree does.
- External weewx/weeutil helpers used by the driver (weewx.units.FtoC,
  weewx.units.conversionDict entries, weewx.wxformulas.calculate_rain,
  weeutil's ListOfDicts.get and option_as_list) are embedded from their
  weewx 3.x definitions.
-/

deriving instance DecidableEq for Except

namespace XmlParse

/-- Exact fraction standing in for a Python float.  All fractions built
by the model have a positive denominator. -/
structure Frac where
  num : ℤ
  den : ℤ
  deriving DecidableEq, Repr

/-- Interpretation of a fraction as a rational number. -/
def Frac.toRat (a : Frac) : ℚ := (a.num : ℚ) / (a.den : ℚ)

def Frac.ofInt (n : ℤ) : Frac := ⟨n, 1⟩

def Frac.neg (a : Frac) : Frac := ⟨-a.num, a.den⟩

def Frac.add (a b : Frac) : Frac := ⟨a.num * b.den + b.num * a.den, a.den * b.den⟩

def Frac.sub (a b : Frac) : Frac := ⟨a.num * b.den - b.num * a.den, a.den * b.den⟩

def Frac.mul (a b : Frac) : Frac := ⟨a.num * b.num, a.den * b.den⟩

/-- Division by a fraction with positive numerator (the only divisions
the driver performs are by positive constants). -/
def Frac.div (a b : Frac) : Frac := ⟨a.num * b.den, a.den * b.num⟩

/-- `a < b` by cross multiplication (valid for positive denominators). -/
def Frac.blt (a b : Frac) : Bool := a.num * b.den < b.num * a.den

/-- `a ≤ b` by cross multiplication (valid for positive denominators). -/
def Frac.ble (a b : Frac) : Bool := a.num * b.den ≤ b.num * a.den

/-- Python exception kinds that the embedded code can raise. -/
inductive PyErr where
  | attributeError
  | typeError
  | keyError
  | indexError
  deriving DecidableEq, Repr

/-- A Python value as it occurs in the driver's record dicts:
a float, an int, a string, or None. -/
inductive PVal where
  | num : Frac → PVal
  | int : ℤ → PVal
  | str : String → PVal
  | pynone : PVal
  deriving DecidableEq, Repr

/-- Python dicts are modelled as association lists in insertion order. -/
abbrev Dict (α : Type) := List (String × α)

/-- `d[k]` as an Option (`k in d` holds iff this is `some`). -/
def dictLookup {α : Type} : Dict α → String → Option α
  | [], _ => Option.none
  | (k, v) :: rest, key => if k = key then some v else dictLookup rest key

/-- `d[k] = v`: overwrite an existing key, else append. -/
def dictInsert {α : Type} (d : Dict α) (k : String) (v : α) : Dict α :=
  if (dictLookup d k).isSome then
    d.map (fun kv => if kv.1 = k then (k, v) else kv)
  else
    d ++ [(k, v)]

/-- `d.pop(k, None)`: the dict after removing `k` (if present). -/
def dictPop {α : Type} (d : Dict α) (k : String) : Dict α :=
  d.filter (fun kv => kv.1 ≠ k)

/-- Whitespace stripped by Python's `float()`. -/
def isSpaceChar (c : Char) : Bool :=
  c = ' ' ∨ c = '\t' ∨ c = '\n' ∨ c = '\r' ∨ c = '\x0b' ∨ c = '\x0c'

/-- `str.strip()` on a character list. -/
def pyStrip (cs : List Char) : List Char :=
  ((cs.dropWhile isSpaceChar).reverse.dropWhile isSpaceChar).reverse

/-- ASCII digit test used by the float parser. -/
def isDigitChar (c : Char) : Bool := '0' ≤ c ∧ c ≤ '9'

/-- Numeric value of a digit list (most significant first). -/
def digitsVal (l : List Char) : ℕ :=
  l.foldl (fun acc c => 10 * acc + (c.toNat - '0'.toNat)) 0

/-- Mantissa part of Python `float()`: `digits`, `digits.digits`,
`digits.` or `.digits`; at least one digit overall. -/
def pyFloatMantissa (cs : List Char) : Option Frac :=
  match cs.span (fun c => c ≠ '.') with
  | (ip, []) =>
    if ip ≠ [] ∧ ip.all isDigitChar then some ⟨digitsVal ip, 1⟩
    else Option.none
  | (ip, _ :: fp) =>
    if (ip ++ fp) ≠ [] ∧ ip.all isDigitChar ∧ fp.all isDigitChar then
      some ⟨(digitsVal ip : ℤ) * 10 ^ fp.length + digitsVal fp, (10 : ℤ) ^ fp.length⟩
    else Option.none

/-- Signed integer exponent of Python `float()`. -/
def pyFloatExp (cs : List Char) : Option ℤ :=
  match cs with
  | '+' :: rest =>
    if rest ≠ [] ∧ rest.all isDigitChar then some (digitsVal rest : ℤ) else Option.none
  | '-' :: rest =>
    if rest ≠ [] ∧ rest.all isDigitChar then some (-(digitsVal rest : ℤ)) else Option.none
  | rest =>
    if rest ≠ [] ∧ rest.all isDigitChar then some (digitsVal rest : ℤ) else Option.none

/-- Scale a mantissa by a power of ten. -/
def applyExpTen (m : Frac) (e : ℤ) : Frac :=
  if 0 ≤ e then ⟨m.num * (10 : ℤ) ^ e.toNat, m.den⟩
  else ⟨m.num, m.den * (10 : ℤ) ^ (-e).toNat⟩

/-- Unsigned body of Python `float()`: mantissa with optional exponent. -/
def pyFloatBody (cs : List Char) : Option Frac :=
  match cs.span (fun c => c ≠ 'e' ∧ c ≠ 'E') with
  | (m, []) => pyFloatMantissa m
  | (m, _ :: ex) =>
    match pyFloatMantissa m, pyFloatExp ex with
    | some q, some e => some (applyExpTen q e)
    | _, _ => Option.none

/-- Python 2 `float(s)` on a decimal literal: optional surrounding
whitespace, optional sign, mantissa, optional exponent.  (inf/nan forms
are outside the number model and never arise in the records considered.)
`Option.none` is the `ValueError` outcome. -/
def pyFloat (s : String) : Option Frac :=
  match pyStrip s.data with
  | '+' :: rest => pyFloatBody rest
  | '-' :: rest => (pyFloatBody rest).map Frac.neg
  | rest => pyFloatBody rest

/-- `''.join`-free uppercase (`str.upper()`), written over the character
list so that it computes by kernel reduction. -/
def strUpper (s : String) : String := String.mk (s.data.map Char.toUpper)

/-- `s.endswith(suffix)` over character lists. -/
def strEndsWith (s suffix : String) : Bool := suffix.data.isSuffixOf s.data

/-- `s[0]` on a Python string: first character, IndexError when empty. -/
def pyStrIndex0 (s : String) : Except PyErr String :=
  match s.data with
  | [] => .error .indexError
  | c :: _ => .ok (String.mk [c])

/-- An ElementTree element: its text content and its attributes
(`element.text`, `element.get`). -/
structure Elem where
  text : Option String
  attribs : Dict String
  deriving DecidableEq, Repr

/-- A parsed document, modelled by its query table: for each XPath
string, the elements it matches in document order.  (The XPath language
itself is the external ElementTree collaborator.) -/
structure XTree where
  table : Dict (List Elem)
  deriving DecidableEq, Repr

/-- `tree.find(xpath)`: first match in document order, or None. -/
def XTree.find (t : XTree) (xpath : String) : Option Elem :=
  match dictLookup t.table xpath with
  | some es => es.head?
  | Option.none => Option.none

/-- XmlObject.get_xpath (lines 572-606).  The source evaluates
`self.tree.find(xpath).text` resp. `self.tree.find(xpath).get(attrib,
None)`: when no tree has been parsed (`self.tree is None`) or the find
has zero matches (find returns None), the attribute access on None
raises AttributeError. -/
def get_xpath (tree : Option XTree) (xpath : String) (attrib : Option String) :
    Except PyErr (Option String) :=
  match tree with
  | Option.none => .error .attributeError
  | some t =>
    match attrib with
    | Option.none =>
      match t.find xpath with
      | Option.none => .error .attributeError
      | some e => .ok e.text
    | some a =>
      match t.find xpath with
      | Option.none => .error .attributeError
      | some e => .ok (dictLookup e.attribs a)

/-- XmlObject.read_file (lines 563-570): `parsed` is the outcome of
`ET.parse(self.path)`; on any exception the handler only logs and the
previous tree is kept (the assignment to `self.tree` never happens). -/
def read_file (parsed : Except String XTree) (tree : Option XTree) : Option XTree :=
  match parsed with
  | .ok t => some t
  | .error _ => tree

/-- The obs-map entry for one WeeWX field: XPath spec and optional
attribute (`_sensor_map[_field]['obs']`). -/
structure ObsMap where
  xpath : String
  arg : Option String
  deriving DecidableEq, Repr

/-- `_sensor_map[_field]['units']`: either a plain WeeWX unit-code
string or an `(xpath, attribute)` tuple (the shapes __init__ stores at
lines 292-303; `hasattr(_, '__iter__')` distinguishes them, true only
for the tuple in Python 2). -/
inductive UnitsMap where
  | fixed : String → UnitsMap
  | path : String → Option String → UnitsMap
  deriving DecidableEq, Repr

/-- One sensor-map entry. -/
structure FieldMap where
  obs : ObsMap
  units : Option UnitsMap
  deriving DecidableEq, Repr

/-- `self.time_zone`: an uppercased zone-code string or an
`(xpath, attribute)` tuple (again told apart by `hasattr '__iter__'`). -/
inductive TZVal where
  | code : String → TZVal
  | pathSpec : String → Option String → TZVal
  deriving DecidableEq, Repr

/-- A raw configuration value as ConfigObj delivers it: a plain string
or a list of strings (a Python 2 `str` has no `__iter__` attribute; a
list does). -/
inductive CVal where
  | str : String → CVal
  | list : List String → CVal
  deriving DecidableEq, Repr

def SUPPORTED_TIMEZONES : List String := ["GMT", "UTC"]

/-- XmlParseDriver.__init__ time-zone handling (lines 256-270): a list
is a complex XPath spec (`(_time_zone[0], _time_zone[1] if len > 1 else
None)`); a plain string is a zone code when its uppercase form is
supported, and otherwise `(_time_zone[0], None)` — the subscript takes
the FIRST CHARACTER of the string (IndexError on an empty string). -/
def load_time_zone : Option CVal → Except PyErr (Option TZVal)
  | Option.none => .ok Option.none
  | some (CVal.list l) =>
    match l with
    | [] => .error .indexError
    | [p] => .ok (some (TZVal.pathSpec p Option.none))
    | p :: a :: _ => .ok (some (TZVal.pathSpec p (some a)))
  | some (CVal.str s) =>
    if strUpper s ∈ SUPPORTED_TIMEZONES then .ok (some (TZVal.code (strUpper s)))
    else
      match pyStrIndex0 s with
      | .error e => .error e
      | .ok c => .ok (some (TZVal.pathSpec c Option.none))

/-- The three conversion functions installed in CONV_FUNCS (line 196):
weewx.units.FtoC, conversionDict['km_per_hour']['meter_per_second']
(x * 0.277777778 in weewx 3.x) and conversionDict['hPa']['mbar'] (the
identity lambda). -/
inductive UnitConv where
  | ftoC
  | kphToMps
  | hpaToMbar
  deriving DecidableEq, Repr

/-- The numeric action of each conversion function. -/
def UnitConv.apply : UnitConv → Frac → Frac
  | .ftoC, x => Frac.div (Frac.mul (Frac.sub x ⟨32, 1⟩) ⟨5, 1⟩) ⟨9, 1⟩
  | .kphToMps, x => Frac.mul x ⟨277777778, 1000000000⟩
  | .hpaToMbar, x => x

/-- CONV_FUNCS (lines 196-198), a weeutil ListOfDicts over one dict;
its `.get` is a plain keyed lookup with default None. -/
def CONV_FUNCS : Dict UnitConv :=
  [("Degrees F", UnitConv.ftoC), ("km/h", UnitConv.kphToMps), ("hPa", UnitConv.hpaToMbar)]

/-- `CONV_FUNCS.get(data[_units_field])`: only a string key can match;
a None or numeric key misses and returns the default None. -/
def conv_funcs_get : PVal → Option UnitConv
  | PVal.str s => dictLookup CONV_FUNCS s
  | _ => Option.none

/-- Calling `_conv_func(_value)` on a record value.  The hPa entry is
`lambda x: x` and returns any argument unchanged; the other two perform
float arithmetic, which raises TypeError on None (and on a string). -/
def applyConv : UnitConv → PVal → Except PyErr PVal
  | .hpaToMbar, v => .ok v
  | u, PVal.num q => .ok (PVal.num (u.apply q))
  | u, PVal.int n => .ok (PVal.num (u.apply (Frac.ofInt n)))
  | _, _ => .error .typeError

/-- Opaque stand-in for a `datetime.datetime` value. -/
structure PyDateTime where
  tag : ℕ
  deriving DecidableEq, Repr

/-- External time functions, fixed for the process lifetime:
`strptime value fmt` models `datetime.datetime.strptime` (None is the
ValueError outcome); `mktime` and `timegm` map a datetime's timetuple
to an epoch second (composed with the final `int()` truncation). -/
structure Env where
  strptime : String → String → Option PyDateTime
  mktime : PyDateTime → ℤ
  timegm : PyDateTime → ℤ

/-- A concrete environment for closed evaluations. -/
def triv_env : Env :=
  { strptime := fun _ _ => Option.none, mktime := fun _ => 0, timegm := fun _ => 0 }

/-- XmlParseDriver.parse_time (lines 453-481).  `strptime` on a None
value (or with a None format) raises TypeError — only ValueError is
caught.  A zone that is None or not in SUPPORTED_TIMEZONES means local
time (`time.mktime`); GMT/UTC uses `calendar.timegm`. -/
def parse_time (env : Env) (fmt : Option String) (value : Option String)
    (zone : Option String) : Except PyErr (Option ℤ) :=
  match value, fmt with
  | some v, some f =>
    match env.strptime v f with
    | Option.none => .ok Option.none
    | some dt =>
      match zone with
      | Option.none => .ok (some (env.mktime dt))
      | some z =>
        if z ∈ SUPPORTED_TIMEZONES then .ok (some (env.timegm dt))
        else .ok (some (env.mktime dt))
  | _, _ => .error .typeError

/-- The body of the parse_raw_data loop (lines 427-447) for one field.
The dateTime branch (slave mode) reads `raw_data['timezone']` (KeyError
when absent).  timezone and `*_units` fields pass through.  Every other
field goes through `float(_value)` guarded only by `except ValueError`:
a None raw value raises TypeError. -/
def parse_field (env : Env) (mode : String) (fmt : Option String)
    (raw : Dict (Option String)) (field : String) (value : Option String) :
    Except PyErr PVal :=
  if field = "dateTime" ∧ mode = "slave" then
    match dictLookup raw "timezone" with
    | Option.none => .error .keyError
    | some zone =>
      match parse_time env fmt value zone with
      | .error e => .error e
      | .ok Option.none => .ok PVal.pynone
      | .ok (some ts) => .ok (PVal.int ts)
  else if field = "timezone" ∨ strEndsWith field "_units" then
    .ok (match value with
         | some s => PVal.str s
         | Option.none => PVal.pynone)
  else
    match value with
    | Option.none => .error .typeError
    | some s =>
      .ok (match pyFloat s with
           | some q => PVal.num q
           | Option.none => PVal.pynone)

/-- Iteration of parse_field over the raw record, building the results
dict. -/
def parse_raw_loop (env : Env) (mode : String) (fmt : Option String)
    (raw : Dict (Option String)) :
    Dict (Option String) → Dict PVal → Except PyErr (Dict PVal)
  | [], acc => .ok acc
  | (f, v) :: rest, acc =>
    match parse_field env mode fmt raw f v with
    | .error e => .error e
    | .ok pv => parse_raw_loop env mode fmt raw rest (dictInsert acc f pv)

/-- XmlParseDriver.parse_raw_data (lines 403-451): parse every field,
then pop the timezone field. -/
def parse_raw_data (env : Env) (mode : String) (fmt : Option String)
    (raw : Dict (Option String)) : Except PyErr (Dict PVal) :=
  match parse_raw_loop env mode fmt raw raw [] with
  | .error e => .error e
  | .ok d => .ok (dictPop d "timezone")

/-- The body of the convert_data loop (lines 509-523) for one field:
if `field + '_units'` is a key of the record, look its value up in
CONV_FUNCS; a found (truthy) function is applied, otherwise the value
is kept unchanged. -/
def convert_field (data : Dict PVal) (field : String) (value : PVal) :
    Except PyErr PVal :=
  match dictLookup data (field ++ "_units") with
  | Option.none => .ok value
  | some code =>
    match conv_funcs_get code with
    | Option.none => .ok value
    | some u => applyConv u value

/-- Iteration of convert_field over the record. -/
def convert_loop (data : Dict PVal) : Dict PVal → Dict PVal → Except PyErr (Dict PVal)
  | [], acc => .ok acc
  | (f, v) :: rest, acc =>
    match convert_field data f v with
    | .error e => .error e
    | .ok cv => convert_loop data rest (dictInsert acc f cv)

/-- XmlParseDriver.convert_data (lines 483-525), a staticmethod of the
parsed record alone. -/
def convert_data (data : Dict PVal) : Except PyErr (Dict PVal) :=
  convert_loop data data []

/-- The fixed unit code configured for a field in the sensor map, when
its units entry is a plain code rather than an XPath spec. -/
def fixed_code_of (sm : Dict FieldMap) (f : String) : Option String :=
  match dictLookup sm f with
  | some m =>
    match m.units with
    | some (UnitsMap.fixed c) => some c
    | _ => Option.none
  | Option.none => Option.none

/-- Conversion of one field as the specification describes it
(spec §4.4): the effective unit code is the FIXED code from the field's
mapping when one is configured, and otherwise the record's `f_units`
value; the conversion-table function for that code is applied exactly
as for a code read from `f_units`.  This is the claim-side definition
for the refinement comparison of C1, not a translation of the code. -/
def convert_field_claim (sm : Dict FieldMap) (data : Dict PVal)
    (field : String) (value : PVal) : Except PyErr PVal :=
  match fixed_code_of sm field with
  | some c =>
    match conv_funcs_get (PVal.str c) with
    | Option.none => .ok value
    | some u => applyConv u value
  | Option.none => convert_field data field value

/-- Iteration of convert_field_claim over the record (claim-side). -/
def convert_loop_claim (sm : Dict FieldMap) (data : Dict PVal) :
    Dict PVal → Dict PVal → Except PyErr (Dict PVal)
  | [], acc => .ok acc
  | (f, v) :: rest, acc =>
    match convert_field_claim sm data f v with
    | .error e => .error e
    | .ok cv => convert_loop_claim sm data rest (dictInsert acc f cv)

/-- convert_data as the specification describes it (claim-side of C1):
it consults the mapping table for fixed unit codes. -/
def convert_data_claim (sm : Dict FieldMap) (data : Dict PVal) :
    Except PyErr (Dict PVal) :=
  convert_loop_claim sm data data []

/-- First loop of get_xml (lines 387-388): one raw entry per sensor-map
field, resolved through get_xpath. -/
def get_xml_obs (tree : Option XTree) :
    Dict FieldMap → Dict (Option String) → Except PyErr (Dict (Option String))
  | [], acc => .ok acc
  | (sensor, m) :: rest, acc =>
    match get_xpath tree m.obs.xpath m.obs.arg with
    | .error e => .error e
    | .ok v => get_xml_obs tree rest (dictInsert acc sensor v)

/-- Timezone step of get_xml (lines 390-394), slave mode only: a tuple
time_zone resolves through get_xpath, anything else (a code string or
None) is stored as-is under 'timezone'. -/
def get_xml_timezone (tree : Option XTree) (mode : String) (tz : Option TZVal)
    (acc : Dict (Option String)) : Except PyErr (Dict (Option String)) :=
  if mode = "slave" then
    match tz with
    | some (TZVal.pathSpec p a) =>
      match get_xpath tree p a with
      | .error e => .error e
      | .ok v => .ok (dictInsert acc "timezone" v)
    | some (TZVal.code s) => .ok (dictInsert acc "timezone" (some s))
    | Option.none => .ok (dictInsert acc "timezone" Option.none)
  else .ok acc

/-- Units loop of get_xml (lines 396-400): only a units map that is a
tuple (an XPath spec) adds a `<sensor>_units` raw entry; a fixed unit
code adds nothing. -/
def get_xml_units (tree : Option XTree) :
    Dict FieldMap → Dict (Option String) → Except PyErr (Dict (Option String))
  | [], acc => .ok acc
  | (sensor, m) :: rest, acc =>
    match m.units with
    | some (UnitsMap.path p a) =>
      match get_xpath tree p a with
      | .error e => .error e
      | .ok v => get_xml_units tree rest (dictInsert acc (sensor ++ "_units") v)
    | _ => get_xml_units tree rest acc

/-- XmlParseDriver.get_xml (lines 374-401). -/
def get_xml (sm : Dict FieldMap) (mode : String) (tz : Option TZVal)
    (tree : Option XTree) : Except PyErr (Dict (Option String)) :=
  match get_xml_obs tree sm [] with
  | .error e => .error e
  | .ok d1 =>
    match get_xml_timezone tree mode tz d1 with
    | .error e => .error e
    | .ok d2 => get_xml_units tree sm d2

/-- A record value as a number, when it is one. -/
def PVal.toFrac : PVal → Option Frac
  | PVal.num q => some q
  | PVal.int n => some (Frac.ofInt n)
  | _ => Option.none

/-- weewx.wxformulas.calculate_rain (weewx 3.x): the delta of two
cumulative readings; None when either reading is None or when the
counter went backwards (counter reset).  Stated over the numeric/None
values that reach it here (the rain field has been through the float
parse, so it is a float or None). -/
def calculate_rain (newtotal oldtotal : PVal) : PVal :=
  match newtotal.toFrac, oldtotal.toFrac with
  | some n, some o => if Frac.ble o n then PVal.num (Frac.sub n o) else PVal.pynone
  | _, _ => PVal.pynone

/-- The `xxxx_units` strip in genLoopPackets (lines 341-347). -/
def strip_units (d : Dict PVal) : Dict PVal :=
  d.filter (fun kv => !(strEndsWith kv.1 "_units"))

/-- The rain-to-delta step of genLoopPackets (lines 348-353): applied
when the field 'rain' is present and `not self.rain_delta`; the raw
cumulative value is saved as the new `self.old_rain`.  Returns the new
old_rain and the updated packet data. -/
def rain_transform (rain_delta : Bool) (old_rain : PVal) (pd : Dict PVal) :
    PVal × Dict PVal :=
  match dictLookup pd "rain" with
  | some cur =>
    if rain_delta = false then
      (cur, dictInsert pd "rain" (calculate_rain cur old_rain))
    else (old_rain, pd)
  | Option.none => (old_rain, pd)

/-- Rank used by Python 2 mixed-type comparison: it orders values of
different non-numeric types by type name, so None ('NoneType') is below
every number ('float'/'int') and every number is below any string
('str'); numeric types compare by value. -/
def typeRank : PVal → ℕ
  | PVal.pynone => 0
  | PVal.num _ => 1
  | PVal.int _ => 1
  | PVal.str _ => 2

/-- Python 2 `x > y` on the record values that can reach the dateTime
gate. -/
def pyGt : PVal → PVal → Bool
  | PVal.int a, PVal.int b => b < a
  | PVal.int a, PVal.num q => Frac.blt q (Frac.ofInt a)
  | PVal.num p, PVal.int b => Frac.blt (Frac.ofInt b) p
  | PVal.num p, PVal.num q => Frac.blt q p
  | PVal.str s, PVal.str t => t < s
  | a, b => typeRank b < typeRank a

/-- The monotonic gate of genLoopPackets (lines 361-365): the packet is
yielded iff `_packet['dateTime'] > _last_dateTime`, and only then does
the watermark move to the packet's dateTime. -/
def gate_step (wm : PVal) (dt : PVal) : PVal × Bool :=
  if pyGt dt wm then (dt, true) else (wm, false)

/-- The gate folded over the dateTime values of consecutive cycles:
final watermark and the per-cycle emitted flags. -/
def run_gate (wm : PVal) : List PVal → PVal × List Bool
  | [] => (wm, [])
  | dt :: rest =>
    match gate_step wm dt with
    | (wm2, e) =>
      match run_gate wm2 rest with
      | (wmf, es) => (wmf, e :: es)

/-- The watermark initialisation of genLoopPackets (line 329):
`int(time.time() - 1)`, one second before the start of the loop. -/
def init_watermark (startTime : ℤ) : PVal := PVal.int (startTime - 1)

/-- weewx.METRICWX (0x11). -/
def METRICWX : ℤ := 17

/-- The driver configuration fields read by one polling cycle, as set
up by `__init__` and immutable afterwards. -/
structure DriverConf where
  sensor_map : Dict FieldMap
  mode : String
  date_time_format : Option String
  time_zone : Option TZVal
  rain_delta : Bool

/-- The observable outcome of one loop iteration: the converted record
(`_converted_data`), the mutable driver state after the cycle
(`self.old_rain` and the `_last_dateTime` watermark) and the emitted
packet, if the gate passed. -/
structure CycleResult where
  converted : Dict PVal
  old_rain : PVal
  watermark : PVal
  emitted : Option (Dict PVal)
  deriving DecidableEq, Repr

/-- The three stateless stages of one cycle (lines 336-340):
get_xml, parse_raw_data, convert_data.  None of the three methods
assigns any attribute of self, so their embedding takes no mutable
state and returns none. -/
def stages (env : Env) (conf : DriverConf) (tree : Option XTree) :
    Except PyErr (Dict PVal) :=
  match get_xml conf.sensor_map conf.mode conf.time_zone tree with
  | .error e => .error e
  | .ok raw =>
    match parse_raw_data env conf.mode conf.date_time_format raw with
    | .error e => .error e
    | .ok parsed => convert_data parsed

/-- Packet assembly of genLoopPackets (lines 341-360): strip the units
helper fields from the converted data, apply the rain transform,
build `{'usUnits': METRICWX}` updated with the packet data, and in
master mode overwrite dateTime with the wall clock `ts`. -/
def cycle_packet (conf : DriverConf) (ts : ℤ) (old_rain : PVal) (conv : Dict PVal) :
    Dict PVal :=
  let pd := strip_units conv
  let st := rain_transform conf.rain_delta old_rain pd
  let packet0 := st.2.foldl (fun acc kv => dictInsert acc kv.1 kv.2)
    [("usUnits", PVal.int METRICWX)]
  if conf.mode = "master" then dictInsert packet0 "dateTime" (PVal.int ts) else packet0

/-- The part of the loop body after the three stages: packet assembly
and the monotonic gate (see `cycle`). -/
def post_cycle (conf : DriverConf) (ts : ℤ) (old_rain wm : PVal) (conv : Dict PVal) :
    Except PyErr CycleResult :=
  match dictLookup (cycle_packet conf ts old_rain conv) "dateTime" with
  | Option.none => .error .keyError
  | some dtv =>
    match gate_step wm dtv with
    | (wm2, emit) =>
      .ok { converted := conv,
            old_rain := (rain_transform conf.rain_delta old_rain (strip_units conv)).1,
            watermark := wm2,
            emitted := if emit then some (cycle_packet conf ts old_rain conv)
              else Option.none }

/-- One iteration of the genLoopPackets loop (lines 330-367), after the
read_file step, on an already-read tree: run the three stages, then the
packet assembly and monotonic gate of post_cycle.  `ts` is the
`int(time.time())` captured at the start of the cycle. -/
def cycle (env : Env) (conf : DriverConf) (tree : Option XTree) (ts : ℤ)
    (old_rain : PVal) (wm : PVal) : Except PyErr CycleResult :=
  match stages env conf tree with
  | .error e => .error e
  | .ok conv => post_cycle conf ts old_rain wm conv

example : pyFloat "23.5" = some ⟨235, 10⟩ := by decide
example : pyFloat "  -1.5e2  " = some ⟨-1500, 10⟩ := by decide
example : pyFloat "abc" = Option.none := by decide
example : pyFloat "" = Option.none := by decide
example : pyFloat "68" = some ⟨68, 1⟩ := by decide
example : pyFloat "+.5e-1" = some ⟨5, 100⟩ := by decide

/-- Claim C2: the claim states that for every mapping configuration and
document state, extract returns a raw record with one entry (string or
None) per configured field and never raises, a zero-match path query
resolving to None.  The code contradicts this (and get_xpath's own
docstring, which promises None on zero matches): `get_xpath` evaluates
`self.tree.find(xpath).text`, so with no tree ever parsed, and equally
with a tree in which the configured path matches zero elements, an
AttributeError on None propagates out of extract.  This theorem
evaluates the code at both failing inputs: a one-field sensor map over
path "a", once with no parsed tree and once with a tree whose query
table has no match for "a". -/
theorem extract_zero_match_raises_bug :
    get_xml [("outTemp", ⟨⟨"a", Option.none⟩, Option.none⟩)] "master" Option.none
      Option.none = .error PyErr.attributeError
  ∧ get_xml [("outTemp", ⟨⟨"a", Option.none⟩, Option.none⟩)] "master" Option.none
      (some ⟨[]⟩) = .error PyErr.attributeError
  ∧ get_xpath (some ⟨[("a", [])]⟩) "a" Option.none = .error PyErr.attributeError := by
  decide

/-- Claim C3: the claim states that parsing a non-reserved field is
total — a numeric raw string parses to its float value, anything else
(including a None raw value from a missing path or empty element)
yields None without raising.  The code contradicts this (and
parse_raw_data's own docstring "converted to float or None if float
conversion is not possible"): `float(_value)` is guarded only by
`except ValueError`, and `float(None)` raises TypeError, which
propagates.  This theorem evaluates the code on a None raw value
(TypeError) and on the documented string cases (float value resp.
None). -/
theorem parse_none_raw_value_raises_bug :
    parse_raw_data triv_env "master" Option.none [("outTemp", Option.none)]
      = .error PyErr.typeError
  ∧ parse_raw_data triv_env "master" Option.none [("outTemp", some "23.5")]
      = .ok [("outTemp", PVal.num ⟨235, 10⟩)]
  ∧ parse_raw_data triv_env "master" Option.none [("outTemp", some "abc")]
      = .ok [("outTemp", PVal.pynone)] := by
  decide

/-- Claim C1: the claim states that a field configured with a fixed
unit code is converted by looking that code up in the conversion table,
exactly as for a code read from the `f_units` helper field.  The code
contradicts this (and the driver's own configuration documentation,
which says explicitly-defined unit codes drive the unit conversion):
`__init__` stores the fixed code in the sensor map but `convert_data`
is a staticmethod of the parsed record alone and never consults the
mapping, so the stored code is dead and the value passes through
unconverted.  Evaluated here on a field mapped with fixed code
"Degrees F" and document value 68: the full pipeline and convert_data
leave 68 unchanged, while conversion as claimed (convert_data_claim)
yields 180/9 = 20 Celsius. -/
theorem conv_fixed_unit_code_ignored_bug :
    stages triv_env
      ⟨[("outTemp", ⟨⟨"t", Option.none⟩, some (UnitsMap.fixed "Degrees F")⟩)],
        "master", Option.none, Option.none, false⟩
      (some ⟨[("t", [⟨some "68", []⟩])]⟩)
      = .ok [("outTemp", PVal.num ⟨68, 1⟩)]
  ∧ convert_data [("outTemp", PVal.num ⟨68, 1⟩)] = .ok [("outTemp", PVal.num ⟨68, 1⟩)]
  ∧ convert_data_claim
      [("outTemp", ⟨⟨"t", Option.none⟩, some (UnitsMap.fixed "Degrees F")⟩)]
      [("outTemp", PVal.num ⟨68, 1⟩)] = .ok [("outTemp", PVal.num ⟨180, 9⟩)]
  ∧ Frac.toRat ⟨180, 9⟩ = 20 := by
  refine ⟨by decide, by decide, by decide, by norm_num [Frac.toRat]⟩

/-- Claim C4, counterexample: the claim states convert leaves a field's
value unchanged and does not raise when the field's value is None even
if its unit code is recognized.  False at a concrete input: a record
with outTemp = None and outTemp_units = "Degrees F" makes convert_data
apply weewx.units.FtoC to None, and the TypeError propagates. -/
theorem convert_none_value_raises_cx :
    convert_data [("outTemp", PVal.pynone), ("outTemp_units", PVal.str "Degrees F")]
      = .error PyErr.typeError := by
  decide

/-- Claim C4, amended: for every parsed record, convert leaves an
observation field's value unchanged and does not raise when no
conversion function is found — the unit code is absent from the record
or has no entry in the conversion table — and likewise when the found
entry is the identity 'hPa' lambda; but when the found conversion
function performs arithmetic ('Degrees F' or 'km/h') and the field's
value is None, the function is applied to None and a TypeError
propagates. -/
theorem convert_no_conversion_unchanged_amended (data : Dict PVal) (f : String)
    (v : PVal) (code : PVal) :
    (dictLookup data (f ++ "_units") = Option.none → convert_field data f v = .ok v)
  ∧ (dictLookup data (f ++ "_units") = some code → conv_funcs_get code = Option.none →
      convert_field data f v = .ok v)
  ∧ (dictLookup data (f ++ "_units") = some code →
      conv_funcs_get code = some UnitConv.hpaToMbar → convert_field data f v = .ok v)
  ∧ (∀ u : UnitConv, dictLookup data (f ++ "_units") = some code →
      conv_funcs_get code = some u → u ≠ UnitConv.hpaToMbar →
      convert_field data f PVal.pynone = .error PyErr.typeError) := by
  refine ⟨fun h => ?_, fun h1 h2 => ?_, fun h1 h2 => ?_, fun u h1 h2 hu => ?_⟩
  · simp [convert_field, h]
  · simp [convert_field, h1, h2]
  · simp [convert_field, h1, h2, applyConv]
  · cases u with
    | hpaToMbar => exact absurd rfl hu
    | ftoC => simp [convert_field, h1, h2, applyConv]
    | kphToMps => simp [convert_field, h1, h2, applyConv]

/-- Witness for the amended C4 theorem at a concrete record: the field
"t" with value 5.0 and no "t_units" entry passes through unchanged. -/
theorem convert_no_conversion_unchanged_witness :
    ((dictLookup [("t", PVal.num ⟨5, 1⟩)] ("t" ++ "_units") = Option.none →
        convert_field [("t", PVal.num ⟨5, 1⟩)] "t" (PVal.num ⟨5, 1⟩)
          = .ok (PVal.num ⟨5, 1⟩))
      ∧ (dictLookup [("t", PVal.num ⟨5, 1⟩)] ("t" ++ "_units") = some (PVal.str "zzz") →
          conv_funcs_get (PVal.str "zzz") = Option.none →
          convert_field [("t", PVal.num ⟨5, 1⟩)] "t" (PVal.num ⟨5, 1⟩)
            = .ok (PVal.num ⟨5, 1⟩))
      ∧ (dictLookup [("t", PVal.num ⟨5, 1⟩)] ("t" ++ "_units") = some (PVal.str "zzz") →
          conv_funcs_get (PVal.str "zzz") = some UnitConv.hpaToMbar →
          convert_field [("t", PVal.num ⟨5, 1⟩)] "t" (PVal.num ⟨5, 1⟩)
            = .ok (PVal.num ⟨5, 1⟩))
      ∧ (∀ u : UnitConv, dictLookup [("t", PVal.num ⟨5, 1⟩)] ("t" ++ "_units")
            = some (PVal.str "zzz") →
          conv_funcs_get (PVal.str "zzz") = some u → u ≠ UnitConv.hpaToMbar →
          convert_field [("t", PVal.num ⟨5, 1⟩)] "t" PVal.pynone
            = .error PyErr.typeError))
    ∧ convert_field [("t", PVal.num ⟨5, 1⟩)] "t" (PVal.num ⟨5, 1⟩)
        = .ok (PVal.num ⟨5, 1⟩) :=
  ⟨convert_no_conversion_unchanged_amended [("t", PVal.num ⟨5, 1⟩)] "t"
      (PVal.num ⟨5, 1⟩) (PVal.str "zzz"),
    (convert_no_conversion_unchanged_amended [("t", PVal.num ⟨5, 1⟩)] "t"
      (PVal.num ⟨5, 1⟩) (PVal.str "zzz")).1 (by decide)⟩

/-- Claim C5: a record is emitted iff its dateTime is strictly greater
than the watermark (a None dateTime never is, so the cycle is
suppressed), the watermark moves only on emit and is initialised to one
second before the start of the loop; and feeding the candidate
timestamps [T, T-1, T+1] across three cycles from a watermark below T
emits cycles 1 and 3, suppresses cycle 2, and ends with the watermark
at T+1. -/
theorem monotonic_gate_ok (T wm0 a b : ℤ) (wm dt : PVal) (h : wm0 < T) :
    gate_step wm PVal.pynone = (wm, false)
  ∧ (gate_step (PVal.int a) (PVal.int b)).2 = decide (a < b)
  ∧ ((gate_step wm dt).2 = false → (gate_step wm dt).1 = wm)
  ∧ init_watermark T = PVal.int (T - 1)
  ∧ run_gate (PVal.int wm0) [PVal.int T, PVal.int (T - 1), PVal.int (T + 1)]
      = (PVal.int (T + 1), [true, false, true]) := by
  have h1 : pyGt (PVal.int T) (PVal.int wm0) = true := by
    simp [pyGt]; exact h
  have h2 : pyGt (PVal.int (T - 1)) (PVal.int T) = false := by
    simp [pyGt]
  have h3 : pyGt (PVal.int (T + 1)) (PVal.int T) = true := by
    simp [pyGt]
  refine ⟨?_, ?_, ?_, rfl, ?_⟩
  · cases wm <;> simp [gate_step, pyGt, typeRank]
  · by_cases hab : a < b <;> simp [gate_step, pyGt, hab]
  · intro hfalse
    by_cases hp : pyGt dt wm = true
    · simp [gate_step, hp] at hfalse
    · simp [gate_step, hp]
  · simp [run_gate, gate_step, h1, h2, h3]

/-- Witness for the C5 gate theorem at T = 1, watermark 0. -/
theorem monotonic_gate_ok_witness :
    gate_step (PVal.int 5) PVal.pynone = (PVal.int 5, false)
  ∧ (gate_step (PVal.int 3) (PVal.int 7)).2 = decide ((3 : ℤ) < 7)
  ∧ ((gate_step (PVal.int 5) PVal.pynone).2 = false →
      (gate_step (PVal.int 5) PVal.pynone).1 = PVal.int 5)
  ∧ init_watermark 1 = PVal.int (1 - 1)
  ∧ run_gate (PVal.int 0) [PVal.int 1, PVal.int (1 - 1), PVal.int (1 + 1)]
      = (PVal.int (1 + 1), [true, false, true]) :=
  monotonic_gate_ok 1 0 3 7 (PVal.int 5) PVal.pynone (by decide)

/-- Claim C6: with the counter-delta transform enabled (rain_delta
false, the driver computes deltas from cumulative readings), a previous
value 5.0 and a current cumulative 8.0 give an emitted rain of 3.0, no
previous value gives None, and CounterState afterwards holds the
current cumulative 8.0; shown on the rain transform itself and on a
full emitted cycle. -/
theorem rain_counter_delta_ok :
    rain_transform false (PVal.num ⟨5, 1⟩) [("rain", PVal.num ⟨8, 1⟩)]
      = (PVal.num ⟨8, 1⟩, [("rain", PVal.num ⟨3, 1⟩)])
  ∧ rain_transform false PVal.pynone [("rain", PVal.num ⟨8, 1⟩)]
      = (PVal.num ⟨8, 1⟩, [("rain", PVal.pynone)])
  ∧ cycle triv_env ⟨[("rain", ⟨⟨"r", Option.none⟩, Option.none⟩)], "master",
        Option.none, Option.none, false⟩
      (some ⟨[("r", [⟨some "8", []⟩])]⟩) 100 (PVal.num ⟨5, 1⟩) (PVal.int 0)
      = .ok ⟨[("rain", PVal.num ⟨8, 1⟩)], PVal.num ⟨8, 1⟩, PVal.int 100,
          some [("usUnits", PVal.int 17), ("rain", PVal.num ⟨3, 1⟩),
                ("dateTime", PVal.int 100)]⟩ := by
  decide

/-- Claim C7: CONV_FUNCS maps exactly the three source unit codes
"Degrees F", "km/h" and "hPa"; through convert_data, 68.0 tagged
"Degrees F" becomes 180/9 = 20 Celsius (within 1e-9), 10.0 tagged
"km/h" becomes 2.77777778 m/s (within 1e-4 of 2.7778), and 1013.0
tagged "hPa" stays 1013.0. -/
theorem conversion_table_ok :
    CONV_FUNCS.map Prod.fst = ["Degrees F", "km/h", "hPa"]
  ∧ convert_data [("outTemp", PVal.num ⟨68, 1⟩), ("outTemp_units", PVal.str "Degrees F")]
      = .ok [("outTemp", PVal.num ⟨180, 9⟩), ("outTemp_units", PVal.str "Degrees F")]
  ∧ |Frac.toRat ⟨180, 9⟩ - 20| ≤ 1 / 1000000000
  ∧ convert_data [("windSpeed", PVal.num ⟨10, 1⟩), ("windSpeed_units", PVal.str "km/h")]
      = .ok [("windSpeed", PVal.num ⟨2777777780, 1000000000⟩),
             ("windSpeed_units", PVal.str "km/h")]
  ∧ |Frac.toRat ⟨2777777780, 1000000000⟩ - 27778 / 10000| ≤ 1 / 10000
  ∧ convert_data [("pressure", PVal.num ⟨1013, 1⟩), ("pressure_units", PVal.str "hPa")]
      = .ok [("pressure", PVal.num ⟨1013, 1⟩), ("pressure_units", PVal.str "hPa")]
  ∧ Frac.toRat ⟨1013, 1⟩ = 1013 := by
  refine ⟨by decide, by decide, by norm_num [Frac.toRat, abs_le], by decide,
    by norm_num [Frac.toRat, abs_le], by decide, by norm_num [Frac.toRat]⟩

/-- Claim C8: when parsing the backing document fails, read_file leaves
the previously parsed tree in place unchanged and propagates no
exception (the handler catches every Exception and only logs); on
success the new tree replaces the old. -/
theorem read_file_failure_keeps_tree_ok (e : String) (t : XTree) (tree : Option XTree) :
    read_file (Except.error e) tree = tree ∧ read_file (Except.ok t) tree = some t :=
  ⟨rfl, rfl⟩

/-- Whether a key is present in a dict depends only on the key list. -/
theorem dictLookup_isSome_keys {α β : Type} :
    ∀ (d1 : Dict α) (d2 : Dict β) (k : String),
      d1.map Prod.fst = d2.map Prod.fst →
      (dictLookup d1 k).isSome = (dictLookup d2 k).isSome
  | [], [], _, _ => rfl
  | [], _ :: _, _, h => by simp at h
  | _ :: _, [], _, h => by simp at h
  | (k1, _) :: l, (k2, _) :: m, k, h => by
    simp only [List.map_cons, List.cons.injEq] at h
    obtain ⟨h1, h2⟩ := h
    subst h1
    by_cases hk : k1 = k
    · simp [dictLookup, hk]
    · simp [dictLookup, hk, dictLookup_isSome_keys l m k h2]

/-- Overwriting the value at a key leaves the key list unchanged. -/
theorem map_fst_overwrite {α : Type} (d : Dict α) (k : String) (v : α) :
    d.map (Prod.fst ∘ fun kv => if kv.1 = k then (k, v) else kv)
      = d.map Prod.fst := by
  induction d with
  | nil => rfl
  | cons a l ih =>
    simp only [List.map_cons, ih]
    by_cases hk : a.1 = k
    · simp [Function.comp, hk]
    · simp [Function.comp, hk]

/-- The key list after dictInsert depends only on the key list, not on
the stored values. -/
theorem dictInsert_keys {α β : Type} (d1 : Dict α) (d2 : Dict β) (k : String)
    (v : α) (w : β) (h : d1.map Prod.fst = d2.map Prod.fst) :
    (dictInsert d1 k v).map Prod.fst = (dictInsert d2 k w).map Prod.fst := by
  unfold dictInsert
  rw [dictLookup_isSome_keys d1 d2 k h]
  by_cases hs : (dictLookup d2 k).isSome
  · rw [if_pos hs, if_pos hs, List.map_map, List.map_map,
      map_fst_overwrite, map_fst_overwrite, h]
  · rw [if_neg hs, if_neg hs]
    simp [h]

/-- Folding dictInsert over entry lists with equal key lists preserves
equality of the accumulated key lists. -/
theorem foldl_insert_keys {α β : Type} :
    ∀ (l1 : Dict α) (l2 : Dict β) (acc1 : Dict α) (acc2 : Dict β),
      l1.map Prod.fst = l2.map Prod.fst →
      acc1.map Prod.fst = acc2.map Prod.fst →
      (l1.foldl (fun acc kv => dictInsert acc kv.1 kv.2) acc1).map Prod.fst
        = (l2.foldl (fun acc kv => dictInsert acc kv.1 kv.2) acc2).map Prod.fst
  | [], [], _, _, _, hacc => hacc
  | [], _ :: _, _, _, h, _ => by simp at h
  | _ :: _, [], _, _, h, _ => by simp at h
  | (k1, v1) :: l, (k2, v2) :: m, acc1, acc2, h, hacc => by
    simp only [List.map_cons, List.cons.injEq] at h
    obtain ⟨h1, h2⟩ := h
    subst h1
    exact foldl_insert_keys l m _ _ h2 (dictInsert_keys acc1 acc2 k1 v1 v2 hacc)

/-- The rain transform changes at most the value stored under 'rain',
never the key list. -/
theorem rain_transform_keys (b : Bool) (o : PVal) (pd : Dict PVal) :
    ((rain_transform b o pd).2).map Prod.fst = pd.map Prod.fst := by
  unfold rain_transform
  cases hl : dictLookup pd "rain" with
  | none => rfl
  | some cur =>
    cases b with
    | true => rfl
    | false =>
      show (dictInsert pd "rain" (calculate_rain cur o)).map Prod.fst = pd.map Prod.fst
      unfold dictInsert
      rw [hl]
      simp [List.map_map, map_fst_overwrite]

/-- The assembled packet's key list does not depend on the wall clock
or on the stored rain counter. -/
theorem cycle_packet_keys (conf : DriverConf) (ts1 ts2 : ℤ) (or1 or2 : PVal)
    (conv : Dict PVal) :
    (cycle_packet conf ts1 or1 conv).map Prod.fst
      = (cycle_packet conf ts2 or2 conv).map Prod.fst := by
  unfold cycle_packet
  have h0 : ((rain_transform conf.rain_delta or1 (strip_units conv)).2.foldl
      (fun acc kv => dictInsert acc kv.1 kv.2) [("usUnits", PVal.int METRICWX)]).map Prod.fst
      = ((rain_transform conf.rain_delta or2 (strip_units conv)).2.foldl
      (fun acc kv => dictInsert acc kv.1 kv.2) [("usUnits", PVal.int METRICWX)]).map Prod.fst :=
    foldl_insert_keys _ _ _ _
      (by rw [rain_transform_keys, rain_transform_keys]) rfl
  by_cases hm : conf.mode = "master"
  · simp only [hm, if_pos]
    exact dictInsert_keys _ _ _ _ _ h0
  · simp only [if_neg hm]
    exact h0

/-- Packet assembly and gate keep the converted record: post_cycle
maps the same conv to the same converted component regardless of the
wall clock, rain counter and watermark. -/
theorem post_cycle_converted (conf : DriverConf) (ts1 ts2 : ℤ)
    (or1 or2 wm1 wm2 : PVal) (conv : Dict PVal) :
    Except.map CycleResult.converted (post_cycle conf ts1 or1 wm1 conv)
      = Except.map CycleResult.converted (post_cycle conf ts2 or2 wm2 conv) := by
  unfold post_cycle
  have hk := dictLookup_isSome_keys (cycle_packet conf ts1 or1 conv)
    (cycle_packet conf ts2 or2 conv) "dateTime"
    (cycle_packet_keys conf ts1 ts2 or1 or2 conv)
  cases h1 : dictLookup (cycle_packet conf ts1 or1 conv) "dateTime" with
  | none =>
    cases h2 : dictLookup (cycle_packet conf ts2 or2 conv) "dateTime" with
    | none => rfl
    | some d2 => rw [h1, h2] at hk; simp at hk
  | some d1 =>
    cases h2 : dictLookup (cycle_packet conf ts2 or2 conv) "dateTime" with
    | none => rw [h1, h2] at hk; simp at hk
    | some d2 => rfl

/-- Claim C9: the extraction, parsing and conversion stages read no
mutable driver state (get_xml, parse_raw_data and convert_data assign
no attribute of self), so two cycles over the identical unchanged tree
produce identical converted records regardless of the wall-clock
timestamp, the stored rain counter and the watermark — the only
state a cycle consumes. -/
theorem stages_pure_idempotent_ok (env : Env) (conf : DriverConf)
    (tree : Option XTree) (ts1 ts2 : ℤ) (or1 or2 wm1 wm2 : PVal) :
    Except.map CycleResult.converted (cycle env conf tree ts1 or1 wm1)
      = Except.map CycleResult.converted (cycle env conf tree ts2 or2 wm2) := by
  unfold cycle
  cases stages env conf tree with
  | error e => rfl
  | ok conv => exact post_cycle_converted conf ts1 ts2 or1 or2 wm1 wm2 conv

/-- Claim C10, counterexample: the claim states that every plain
non-list time_zone string other than the supported codes is loaded as a
path spec holding the string's first character.  False at the empty
string: "" is such a string (its uppercase form is not GMT/UTC), yet
`_time_zone[0]` raises IndexError instead of producing any path spec. -/
theorem time_zone_string_empty_cx :
    load_time_zone (some (CVal.str "")) = .error PyErr.indexError
  ∧ SUPPORTED_TIMEZONES.contains (strUpper "") = false := by
  decide

/-- Claim C10, amended: if the time_zone option is a plain NONEMPTY
string whose uppercase form is not one of the supported codes GMT/UTC,
configuration loading treats it as a path spec whose path query is the
one-character string holding the first character of the option (with no
attribute), so every document-driven timezone resolution under such a
configuration queries the document with that one-character path; an
empty string instead raises IndexError. -/
theorem time_zone_string_first_char_amended (c : Char) (cs : List Char)
    (h : strUpper (String.mk (c :: cs)) ∉ SUPPORTED_TIMEZONES) :
    load_time_zone (some (CVal.str (String.mk (c :: cs))))
      = .ok (some (TZVal.pathSpec (String.mk [c]) Option.none))
  ∧ (String.mk [c]).length = 1 := by
  exact ⟨by simp [load_time_zone, pyStrIndex0, h], rfl⟩

/-- Witness for the amended C10 theorem at the concrete option "abc":
loaded as the path spec ("a", None). -/
theorem time_zone_string_first_char_witness :
    load_time_zone (some (CVal.str (String.mk ['a', 'b', 'c'])))
      = .ok (some (TZVal.pathSpec (String.mk ['a']) Option.none))
  ∧ (String.mk ['a']).length = 1 :=
  time_zone_string_first_char_amended 'a' ['b', 'c'] (by decide)

end XmlParse
